import Mathlib

/-!
Verification of `src/tools/basetool.py`: the `execute_code` and
`execute_command` tools, shallowly embedded in Lean.

The embedding mirrors the Python source:
* `PyPath.isabs`, `PyPath.join`, `PyPath.normpath` follow CPython's
  `posixpath` implementations used at lines 40-46 of the source.
* `execute_code_try` is the body of the `try:` block of `execute_code`
  (lines 35-85); faults that the Python code can raise (in `os.makedirs`,
  in the file write, or when launching the child process) are supplied by
  an explicit `Env` oracle.  `execute_code` wraps it with the
  `except Exception` clause (lines 86-92).
* `execute_command` models lines 109-127: `subprocess.run(..., check=True)`
  raises `CalledProcessError` on a non-zero exit (converted to an
  `"Error: ..."` string by the `except` clause); any other fault, such as a
  launch failure, is not matched by `except subprocess.CalledProcessError`
  and propagates (modelled as `Except.error`).
* `buildCommand` mirrors line 57 (`command = f"python {code_file_path}"`),
  and `shellFields` models POSIX shell field splitting of an unquoted
  command string on IFS whitespace, as performed by `shell=True`.
-/

namespace PyPath

/-- `posixpath.isabs`: a path is absolute iff it starts with a slash. -/
def isabs (s : String) : Bool :=
  match s.data with
  | '/' :: _ => true
  | _ => false

/-- Whether the path ends with a slash (the `path.endswith(sep)` test of
`posixpath.join`). -/
def endsWithSep (s : String) : Bool :=
  s.data.getLast? = some '/'

/-- `posixpath.join a b` for a single extra component: if `b` is absolute it
replaces `a`; if `a` is empty or already ends with the separator, plain
concatenation; otherwise a separator is inserted. -/
def join (a b : String) : String :=
  if isabs b then b
  else if a.data = [] ∨ endsWithSep a then a ++ b
  else a ++ "/" ++ b

/-- Python `str.split(sep)` on a list of characters: splits at every
occurrence of `sep`, keeping empty components. -/
def splitOn (sep : Char) : List Char → List (List Char)
  | [] => [[]]
  | c :: rest =>
    if c = sep then [] :: splitOn sep rest
    else
      match splitOn sep rest with
      | [] => [[c]]
      | f :: fs => (c :: f) :: fs

/-- `sep.join(comps)` on lists of characters. -/
def joinSep (sep : Char) : List (List Char) → List Char
  | [] => []
  | [x] => x
  | x :: xs => x ++ sep :: joinSep sep xs

/-- One iteration of the component loop of `posixpath.normpath`.  The
accumulator is kept reversed (its head is Python's `new_comps[-1]`). -/
def normStep (hasRoot : Bool) (acc : List (List Char)) (comp : List Char) :
    List (List Char) :=
  if comp = [] ∨ comp = ['.'] then acc
  else if comp ≠ ['.', '.'] ∨ (¬ hasRoot ∧ acc = [])
      ∨ (acc ≠ [] ∧ acc.headD [] = ['.', '.']) then
    comp :: acc
  else
    match acc with
    | [] => []
    | _ :: t => t

/-- `posixpath.normpath`, following the CPython pure-Python implementation:
empty path maps to `"."`; one or two (but not three or more) leading slashes
are preserved; `"."` and empty components vanish; `".."` cancels a previous
real component. -/
def normpath (s : String) : String :=
  if s = "" then "."
  else
    let cs := s.data
    let initialSlashes : Nat :=
      match cs with
      | '/' :: '/' :: '/' :: _ => 1
      | '/' :: '/' :: _ => 2
      | '/' :: _ => 1
      | _ => 0
    let comps := splitOn '/' cs
    let newComps := (comps.foldl (normStep (initialSlashes ≠ 0)) []).reverse
    let p := List.replicate initialSlashes '/' ++ joinSep '/' newComps
    if p = [] then "." else String.mk p

end PyPath

/-- Lines 40-46 of the source: the resolved file path of `execute_code` —
the target name itself when absolute, otherwise joined under the working
directory, and normalized either way. -/
def resolvedPath (wd codefile_name : String) : String :=
  PyPath.normpath
    (if PyPath.isabs codefile_name then codefile_name
     else PyPath.join wd codefile_name)

/-- Outcome of a child process that ran to completion: exit status and the
fully captured output streams (`subprocess.run` with `capture_output`). -/
structure RunOutcome where
  returncode : Int
  stdout : String
  stderr : String
deriving DecidableEq, Repr

/-- What `subprocess.run` does on a given command line: either the child
process exits (with some `RunOutcome`), or launching it raises an OS-level
fault carrying a message. -/
inductive RunResult where
  | completed (o : RunOutcome)
  | launchFault (msg : String)
deriving DecidableEq, Repr

/-- The effect oracle for one `execute_code` call: whether `os.makedirs`
raises, whether the `open`/`write` raises, and what `subprocess.run` does on
each command line.  `none` means the step succeeds. -/
structure Env where
  makedirsFault : Option String
  writeFault : Option String
  run : String → RunResult

/-- The filesystem, as a map from paths to file contents. -/
def FS : Type := String → Option String

/-- Overwriting write of `content` at `path` (lines 51-52 of the source:
`open(path, 'w')` truncates any existing file). -/
def FS.write (fs : FS) (path content : String) : FS :=
  fun q => if q = path then some content else fs q

/-- The result dictionary of `execute_code`: key `result` always present,
exactly one of `output` / `error` present (modelled as `Option`), and key
`file_path` always present. -/
structure ExecResult where
  result : String
  output : Option String
  error : Option String
  file_path : String
deriving DecidableEq, Repr

/-- The dictionary returned by `execute_code`, as an association list in the
key order the source constructs it. -/
def ExecResult.toDict (r : ExecResult) : List (String × String) :=
  [("result", r.result)]
    ++ (match r.output with | some o => [("output", o)] | none => [])
    ++ (match r.error with | some e => [("error", e)] | none => [])
    ++ [("file_path", r.file_path)]

/-- Line 76 of the source: the fixed completion-hint suffix appended to the
captured stdout on success. -/
def completionHint : String :=
  "\n\nIf you have completed all tasks, respond with FINAL ANSWER."

/-- Line 57 of the source: `command = f"python {code_file_path}"`. -/
def buildCommand (path : String) : String :=
  "python " ++ path

/-- The body of the `try:` block of `execute_code` (lines 35-85).  A raised
fault is returned as `Except.error (msg, pathOpt)` where `pathOpt` is
`some code_file_path` when the local `code_file_path` had been assigned
before the fault, and `none` otherwise (the `'code_file_path' in locals()`
test of line 91). -/
def execute_code_try (wd input_code codefile_name : String) (env : Env)
    (fs : FS) : Except (String × Option String) ExecResult × FS :=
  match env.makedirsFault with
  | some m => (Except.error (m, none), fs)
  | none =>
    let code_file_path := resolvedPath wd codefile_name
    match env.writeFault with
    | some m => (Except.error (m, some code_file_path), fs)
    | none =>
      let fs1 := fs.write code_file_path input_code
      match env.run (buildCommand code_file_path) with
      | RunResult.launchFault m => (Except.error (m, some code_file_path), fs1)
      | RunResult.completed o =>
        if o.returncode = 0 then
          (Except.ok
            { result := "Code executed successfully",
              output := some (o.stdout ++ completionHint),
              error := none,
              file_path := code_file_path }, fs1)
        else
          (Except.ok
            { result := "Failed to execute",
              output := none,
              error := some o.stderr,
              file_path := code_file_path }, fs1)

/-- `execute_code` (lines 17-92): the `try:` body wrapped in the
`except Exception` clause of lines 86-92, which converts any fault into the
`"Error occurred"` dictionary, with `file_path` the resolved path when it
was already assigned and the literal `"Unknown"` otherwise. -/
def execute_code (wd input_code codefile_name : String) (env : Env)
    (fs : FS) : ExecResult × FS :=
  match execute_code_try wd input_code codefile_name env fs with
  | (Except.ok r, fs1) => (r, fs1)
  | (Except.error (m, p), fs1) =>
    ({ result := "Error occurred",
       output := none,
       error := some m,
       file_path := p.getD "Unknown" }, fs1)

/-- What `subprocess.run` can do inside `execute_command`: the child exits
(any code), or launching it raises a fault that is not a
`CalledProcessError` (e.g. a missing working directory or a fork failure). -/
inductive CmdResult where
  | exited (o : RunOutcome)
  | launchFault (msg : String)
deriving DecidableEq, Repr

/-- `execute_command` (lines 94-127).  With `check=True`, a non-zero exit
raises `CalledProcessError`, which the `except` clause converts to
`"Error: " ++ stderr`; a zero exit returns the captured stdout.  A launch
fault is not a `CalledProcessError`, so it propagates out of the function
(`Except.error`). -/
def execute_command (command : String) (runner : String → CmdResult) :
    Except String String :=
  match runner command with
  | CmdResult.exited o =>
    if o.returncode = 0 then Except.ok o.stdout
    else Except.ok ("Error: " ++ o.stderr)
  | CmdResult.launchFault m => Except.error m

/-- Whether a character is IFS whitespace for POSIX shell field splitting. -/
def isShellSpace (c : Char) : Bool :=
  c = ' ' ∨ c = '\t' ∨ c = '\n'

/-- Field splitting of an unquoted word list on IFS whitespace, accumulator
based (the accumulator holds the current field reversed). -/
def fieldsAux : List Char → List Char → List (List Char)
  | cur, [] => if cur = [] then [] else [cur.reverse]
  | cur, c :: rest =>
    if isShellSpace c then
      if cur = [] then fieldsAux [] rest
      else cur.reverse :: fieldsAux [] rest
    else fieldsAux (c :: cur) rest

/-- The argument words the shell passes to the invoked program, for a
command string containing no quoting or metacharacters: the IFS-whitespace
fields of the string. -/
def shellFields (s : String) : List String :=
  (fieldsAux [] s.data).map (fun cs => String.mk cs)

/-! ## Helper lemmas -/

/-- Field splitting of a whitespace-free tail: starting with accumulator
`cur`, the whole remaining input becomes a single field. -/
theorem fieldsAux_no_space (l : List Char) :
    ∀ cur : List Char, (∀ c ∈ l, isShellSpace c = false) →
      fieldsAux cur l = if cur = [] ∧ l = [] then [] else [cur.reverse ++ l] := by
  induction l with
  | nil =>
    intro cur _
    by_cases hc : cur = [] <;> simp [fieldsAux, hc]
  | cons c rest ih =>
    intro cur h
    have hc : isShellSpace c = false := h c (List.mem_cons_self c rest)
    have hrest : ∀ c ∈ rest, isShellSpace c = false :=
      fun c hmem => h c (List.mem_cons_of_mem _ hmem)
    simp only [fieldsAux, hc, Bool.false_eq_true, if_false]
    rw [ih (c :: cur) hrest]
    simp [List.append_assoc]

/-- Field splitting of `"python " ++ cs` always yields `"python"` as the
first field, followed by the fields of `cs`. -/
theorem fieldsAux_buildCommand (cs : List Char) :
    fieldsAux [] ("python ".data ++ cs) = "python".data :: fieldsAux [] cs := rfl

/-! ## Claim theorems -/

/-- Claim C1: whenever the child process of `execute_code` exits with code 0,
the returned dictionary has the success tag and its `output` field is the
captured stdout with the fixed completion-hint suffix appended verbatim, so
the output ends with that suffix. -/
theorem execute_code_success_appends_hint
    (wd ic name : String) (env : Env) (fs : FS) (o : RunOutcome)
    (hm : env.makedirsFault = none) (hw : env.writeFault = none)
    (hr : env.run (buildCommand (resolvedPath wd name)) = RunResult.completed o)
    (h0 : o.returncode = 0) :
    (execute_code wd ic name env fs).1.result = "Code executed successfully"
    ∧ (execute_code wd ic name env fs).1.output
        = some (o.stdout ++ completionHint)
    ∧ ∃ pre, (execute_code wd ic name env fs).1.output
        = some (pre ++ completionHint) := by
  refine ⟨?_, ?_, ⟨o.stdout, ?_⟩⟩ <;>
    simp [execute_code, execute_code_try, hm, hw, hr, h0]

/-- Witness for C1 at a concrete input. -/
theorem execute_code_success_appends_hint_witness :
    (execute_code "/wd" "print(1+1)" "code.py"
        ⟨none, none, fun _ => RunResult.completed ⟨0, "2\n", ""⟩⟩
        (fun _ => none)).1.result = "Code executed successfully"
    ∧ (execute_code "/wd" "print(1+1)" "code.py"
        ⟨none, none, fun _ => RunResult.completed ⟨0, "2\n", ""⟩⟩
        (fun _ => none)).1.output = some ("2\n" ++ completionHint)
    ∧ ∃ pre, (execute_code "/wd" "print(1+1)" "code.py"
        ⟨none, none, fun _ => RunResult.completed ⟨0, "2\n", ""⟩⟩
        (fun _ => none)).1.output = some (pre ++ completionHint) :=
  execute_code_success_appends_hint "/wd" "print(1+1)" "code.py"
    ⟨none, none, fun _ => RunResult.completed ⟨0, "2\n", ""⟩⟩
    (fun _ => none) ⟨0, "2\n", ""⟩ rfl rfl rfl rfl

/-- Claim C3: the resolved path of `execute_code` is the normalized target
name when the target name is absolute (independently of the working
directory), and the normalized join of the working directory and the target
name when it is relative; whenever `os.makedirs` succeeds, the result's
`file_path` field is exactly this resolved path. -/
theorem resolvedPath_spec (wd name : String) :
    resolvedPath wd name
      = (if PyPath.isabs name then PyPath.normpath name
         else PyPath.normpath (PyPath.join wd name))
    ∧ (PyPath.isabs name = true →
        ∀ wd', resolvedPath wd name = resolvedPath wd' name)
    ∧ (∀ (ic : String) (env : Env) (fs : FS), env.makedirsFault = none →
        (execute_code wd ic name env fs).1.file_path = resolvedPath wd name) := by
  refine ⟨?_, ?_, ?_⟩
  · by_cases h : PyPath.isabs name <;> simp [resolvedPath, h]
  · intro h wd'
    simp [resolvedPath, h]
  · intro ic env fs hm
    cases hw : env.writeFault with
    | some m => simp [execute_code, execute_code_try, hm, hw]
    | none =>
      cases hr : env.run (buildCommand (resolvedPath wd name)) with
      | launchFault m => simp [execute_code, execute_code_try, hm, hw, hr]
      | completed o =>
        by_cases h0 : o.returncode = 0 <;>
          simp [execute_code, execute_code_try, hm, hw, hr, h0]

/-- Witness for C3 at concrete inputs: an absolute target name ignores the
working directory, and the returned `file_path` equals the resolved path. -/
theorem resolvedPath_spec_witness :
    resolvedPath "/wd" "/abs/x.py" = resolvedPath "/other" "/abs/x.py"
    ∧ (execute_code "/wd" "print(1)" "/abs/x.py"
        ⟨none, none, fun _ => RunResult.completed ⟨0, "", ""⟩⟩
        (fun _ => none)).1.file_path = resolvedPath "/wd" "/abs/x.py" :=
  ⟨(resolvedPath_spec "/wd" "/abs/x.py").2.1 rfl "/other",
   (resolvedPath_spec "/wd" "/abs/x.py").2.2 "print(1)"
     ⟨none, none, fun _ => RunResult.completed ⟨0, "", ""⟩⟩
     (fun _ => none) rfl⟩

/-- Claim C4: whenever the child process of `execute_code` exits with a
non-zero code, the call returns the execution-failure dictionary whose
`error` field is the captured stderr, and no `output` key is present. -/
theorem execute_code_failure_result
    (wd ic name : String) (env : Env) (fs : FS) (o : RunOutcome)
    (hm : env.makedirsFault = none) (hw : env.writeFault = none)
    (hr : env.run (buildCommand (resolvedPath wd name)) = RunResult.completed o)
    (hne : o.returncode ≠ 0) :
    (execute_code wd ic name env fs).1
      = { result := "Failed to execute", output := none,
          error := some o.stderr, file_path := resolvedPath wd name }
    ∧ "output" ∉ ((execute_code wd ic name env fs).1.toDict).map Prod.fst := by
  have h1 : (execute_code wd ic name env fs).1
      = { result := "Failed to execute", output := none,
          error := some o.stderr, file_path := resolvedPath wd name } := by
    simp [execute_code, execute_code_try, hm, hw, hr, hne]
  refine ⟨h1, ?_⟩
  rw [h1]
  simp [ExecResult.toDict]

/-- Witness for C4 at a concrete input. -/
theorem execute_code_failure_result_witness :
    (execute_code "/wd" "raise ValueError" "code.py"
        ⟨none, none, fun _ => RunResult.completed ⟨1, "", "ValueError"⟩⟩
        (fun _ => none)).1
      = { result := "Failed to execute", output := none,
          error := some "ValueError",
          file_path := resolvedPath "/wd" "code.py" }
    ∧ "output" ∉ ((execute_code "/wd" "raise ValueError" "code.py"
        ⟨none, none, fun _ => RunResult.completed ⟨1, "", "ValueError"⟩⟩
        (fun _ => none)).1.toDict).map Prod.fst :=
  execute_code_failure_result "/wd" "raise ValueError" "code.py"
    ⟨none, none, fun _ => RunResult.completed ⟨1, "", "ValueError"⟩⟩
    (fun _ => none) ⟨1, "", "ValueError"⟩ rfl rfl rfl (by decide)

/-- Claim C5: whenever the child process of `execute_command` exits with
code 0, the return value is exactly the captured stdout, unmodified. -/
theorem execute_command_success (command : String)
    (runner : String → CmdResult) (o : RunOutcome)
    (hr : runner command = CmdResult.exited o) (h0 : o.returncode = 0) :
    execute_command command runner = Except.ok o.stdout := by
  simp [execute_command, hr, h0]

/-- Witness for C5 at a concrete input. -/
theorem execute_command_success_witness :
    execute_command "echo hello"
      (fun _ => CmdResult.exited ⟨0, "hello\n", ""⟩)
      = Except.ok "hello\n" :=
  execute_command_success "echo hello"
    (fun _ => CmdResult.exited ⟨0, "hello\n", ""⟩)
    ⟨0, "hello\n", ""⟩ rfl rfl

/-- Claim C6: whenever the child process of `execute_command` exits with a
non-zero code, the return value is exactly `"Error: "` followed by the
captured stderr, and it is unchanged under any value of the captured
stdout. -/
theorem execute_command_failure (command : String)
    (runner : String → CmdResult) (o : RunOutcome)
    (hr : runner command = CmdResult.exited o) (hne : o.returncode ≠ 0) :
    execute_command command runner = Except.ok ("Error: " ++ o.stderr)
    ∧ ∀ s : String,
        execute_command command
          (fun _ => CmdResult.exited ⟨o.returncode, s, o.stderr⟩)
          = Except.ok ("Error: " ++ o.stderr) := by
  constructor
  · simp [execute_command, hr, hne]
  · intro s
    simp [execute_command, hne]

/-- Witness for C6 at a concrete input. -/
theorem execute_command_failure_witness :
    execute_command "exit 3"
      (fun _ => CmdResult.exited ⟨3, "partial out", "some error"⟩)
      = Except.ok ("Error: " ++ "some error")
    ∧ ∀ s : String,
        execute_command "exit 3"
          (fun _ => CmdResult.exited ⟨3, s, "some error"⟩)
          = Except.ok ("Error: " ++ "some error") :=
  execute_command_failure "exit 3"
    (fun _ => CmdResult.exited ⟨3, "partial out", "some error"⟩)
    ⟨3, "partial out", "some error"⟩ rfl (by decide)

/-- Counterexample to claim C2: a fault raised inside `execute_command` that
is not a `CalledProcessError` — here a launch fault — is not caught by the
`except subprocess.CalledProcessError` clause and propagates to the caller,
so it is false that no exception ever escapes either operation. -/
theorem execute_command_launch_fault_propagates :
    execute_command "python data.py"
      (fun _ => CmdResult.launchFault "No such file or directory")
      = Except.error "No such file or directory" := rfl

/-- Claim C2 as amended: every fault inside `execute_code` is caught and
converted into one of the three structured result dictionaries, and
`execute_command` converts a completed child process (any exit code) into a
returned string; but a fault that is not a `CalledProcessError`, such as a
launch fault, propagates out of `execute_command`. -/
theorem fault_boundary_amended
    (wd ic name : String) (env : Env) (fs : FS)
    (command : String) (runner : String → CmdResult)
    (o : RunOutcome) (m : String) :
    ((execute_code wd ic name env fs).1.result = "Code executed successfully"
      ∨ (execute_code wd ic name env fs).1.result = "Failed to execute"
      ∨ (execute_code wd ic name env fs).1.result = "Error occurred")
    ∧ (runner command = CmdResult.exited o →
        ∃ s, execute_command command runner = Except.ok s)
    ∧ (runner command = CmdResult.launchFault m →
        execute_command command runner = Except.error m) := by
  refine ⟨?_, ?_, ?_⟩
  · cases hm : env.makedirsFault with
    | some m' => simp [execute_code, execute_code_try, hm]
    | none =>
      cases hw : env.writeFault with
      | some m' => simp [execute_code, execute_code_try, hm, hw]
      | none =>
        cases hr : env.run (buildCommand (resolvedPath wd name)) with
        | launchFault m' => simp [execute_code, execute_code_try, hm, hw, hr]
        | completed o' =>
          by_cases h0 : o'.returncode = 0 <;>
            simp [execute_code, execute_code_try, hm, hw, hr, h0]
  · intro hr
    by_cases h0 : o.returncode = 0
    · exact ⟨o.stdout, by simp [execute_command, hr, h0]⟩
    · exact ⟨"Error: " ++ o.stderr, by simp [execute_command, hr, h0]⟩
  · intro hr
    simp [execute_command, hr]

/-- Witness for the amended C2 at concrete inputs: a completed child yields
a returned string, a launch fault yields a propagated error. -/
theorem fault_boundary_amended_witness :
    (∃ s, execute_command "echo hi"
        (fun _ => CmdResult.exited ⟨0, "hi\n", ""⟩) = Except.ok s)
    ∧ execute_command "badcmd"
        (fun _ => CmdResult.launchFault "boom") = Except.error "boom" :=
  ⟨(fault_boundary_amended "/wd" "x" "code.py"
      ⟨none, none, fun _ => RunResult.completed ⟨0, "", ""⟩⟩ (fun _ => none)
      "echo hi" (fun _ => CmdResult.exited ⟨0, "hi\n", ""⟩)
      ⟨0, "hi\n", ""⟩ "boom").2.1 rfl,
   (fault_boundary_amended "/wd" "x" "code.py"
      ⟨none, none, fun _ => RunResult.completed ⟨0, "", ""⟩⟩ (fun _ => none)
      "badcmd" (fun _ => CmdResult.launchFault "boom")
      ⟨0, "hi\n", ""⟩ "boom").2.2 rfl⟩

/-- Counterexample to claim C7: when the fault occurs in `os.makedirs`,
before path resolution, the `file_path` field of the returned dictionary is
the literal `"Unknown"` (capital U), not the claimed literal `"unknown"`. -/
theorem execute_code_unknown_sentinel_cex :
    (execute_code "/wd" "print(1)" "code.py"
        ⟨some "boom", none, fun _ => RunResult.completed ⟨0, "", ""⟩⟩
        (fun _ => none)).1.file_path = "Unknown"
    ∧ ("Unknown" : String) ≠ "unknown" :=
  ⟨rfl, by decide⟩

/-- Claim C7 as amended: on every fault caught by `execute_code`, the
returned dictionary carries the fault's message in `error`; its `file_path`
is the resolved path when path resolution had already completed (write
fault or launch fault), and the literal sentinel `"Unknown"` (capital U,
not `"unknown"`) when the fault preceded path resolution (makedirs
fault). -/
theorem execute_code_internal_error_fields
    (wd ic name m : String) (env : Env) (fs : FS) :
    (env.makedirsFault = some m →
      (execute_code wd ic name env fs).1
        = { result := "Error occurred", output := none, error := some m,
            file_path := "Unknown" })
    ∧ (env.makedirsFault = none → env.writeFault = some m →
      (execute_code wd ic name env fs).1
        = { result := "Error occurred", output := none, error := some m,
            file_path := resolvedPath wd name })
    ∧ (env.makedirsFault = none → env.writeFault = none →
      env.run (buildCommand (resolvedPath wd name)) = RunResult.launchFault m →
      (execute_code wd ic name env fs).1
        = { result := "Error occurred", output := none, error := some m,
            file_path := resolvedPath wd name }) :=
  ⟨fun hm => by simp [execute_code, execute_code_try, hm],
   fun hm hw => by simp [execute_code, execute_code_try, hm, hw],
   fun hm hw hr => by simp [execute_code, execute_code_try, hm, hw, hr]⟩

/-- Witness for the amended C7 at concrete inputs: a write fault keeps the
resolved path, a makedirs fault yields the `"Unknown"` sentinel. -/
theorem execute_code_internal_error_fields_witness :
    (execute_code "/wd" "print(1)" "a.py"
        ⟨none, some "disk full", fun _ => RunResult.completed ⟨0, "", ""⟩⟩
        (fun _ => none)).1
      = { result := "Error occurred", output := none,
          error := some "disk full", file_path := resolvedPath "/wd" "a.py" }
    ∧ (execute_code "/wd" "print(1)" "a.py"
        ⟨some "denied", none, fun _ => RunResult.completed ⟨0, "", ""⟩⟩
        (fun _ => none)).1
      = { result := "Error occurred", output := none,
          error := some "denied", file_path := "Unknown" } :=
  ⟨(execute_code_internal_error_fields "/wd" "print(1)" "a.py" "disk full"
      ⟨none, some "disk full", fun _ => RunResult.completed ⟨0, "", ""⟩⟩
      (fun _ => none)).2.1 rfl rfl,
   (execute_code_internal_error_fields "/wd" "print(1)" "a.py" "denied"
      ⟨some "denied", none, fun _ => RunResult.completed ⟨0, "", ""⟩⟩
      (fun _ => none)).1 rfl⟩

/-- Counterexample to claim C8: the command string `f"python {path}"` is
passed to the shell unquoted, so a resolved path containing a space is
split into two separate arguments instead of reaching the interpreter as a
sole argument. -/
theorem buildCommand_splits_on_space_cex :
    shellFields (buildCommand "/wd/my file.py")
      = ["python", "/wd/my", "file.py"]
    ∧ shellFields (buildCommand "/wd/my file.py")
      ≠ ["python", "/wd/my file.py"] := by
  constructor <;> decide

/-- Claim C8 as amended: the command line is the string `"python "` followed
by the resolved path, handed to the shell; field splitting always yields
`"python"` followed by the whitespace-split fields of the path, so the
interpreter receives the resolved path as its sole argument exactly when the
path is nonempty and free of whitespace — a path containing whitespace is
split into several arguments. -/
theorem buildCommand_sole_argument
    (p : String) (hne : p.data ≠ [])
    (hns : ∀ c ∈ p.data, isShellSpace c = false) :
    shellFields (buildCommand p) = ["python", p]
    ∧ ∀ q : String, shellFields (buildCommand q) = "python" :: shellFields q := by
  have key : ∀ q : String,
      shellFields (buildCommand q) = "python" :: shellFields q := by
    intro q
    show (fieldsAux [] ("python ".data ++ q.data)).map _ = _
    rw [fieldsAux_buildCommand]
    rfl
  refine ⟨?_, key⟩
  rw [key p]
  show _ :: (fieldsAux [] p.data).map _ = _
  rw [fieldsAux_no_space p.data [] hns]
  simp [hne, show String.mk p.data = p from rfl]

/-- Witness for the amended C8 at a concrete whitespace-free path. -/
theorem buildCommand_sole_argument_witness :
    shellFields (buildCommand "/wd/code.py") = ["python", "/wd/code.py"] :=
  (buildCommand_sole_argument "/wd/code.py" (by decide) (by decide)).1

/-- Claim C9: running `execute_code` twice with identical inputs (and the
same process behaviour) leaves identical file content at the resolved path —
the second call overwrites the file with the same bytes — and returns
structurally identical result dictionaries; after each call the file at the
resolved path holds exactly the input code. -/
theorem execute_code_idempotent
    (wd ic name : String) (env : Env) (fs : FS)
    (hm : env.makedirsFault = none) (hw : env.writeFault = none) :
    (execute_code wd ic name env ((execute_code wd ic name env fs).2)).1
      = (execute_code wd ic name env fs).1
    ∧ (execute_code wd ic name env ((execute_code wd ic name env fs).2)).2
      = (execute_code wd ic name env fs).2
    ∧ (execute_code wd ic name env fs).2 (resolvedPath wd name) = some ic := by
  have hws : ∀ g : FS,
      (g.write (resolvedPath wd name) ic) (resolvedPath wd name) = some ic := by
    intro g
    simp [FS.write]
  have hww : ∀ g : FS,
      (g.write (resolvedPath wd name) ic).write (resolvedPath wd name) ic
        = g.write (resolvedPath wd name) ic := by
    intro g
    funext q
    by_cases h : q = resolvedPath wd name <;> simp [FS.write, h]
  cases hr : env.run (buildCommand (resolvedPath wd name)) with
  | launchFault m =>
    refine ⟨?_, ?_, ?_⟩ <;>
      simp [execute_code, execute_code_try, hm, hw, hr, hws, hww]
  | completed o =>
    by_cases h0 : o.returncode = 0 <;>
      refine ⟨?_, ?_, ?_⟩ <;>
        simp [execute_code, execute_code_try, hm, hw, hr, h0, hws, hww]

/-- Witness for C9 at a concrete input. -/
theorem execute_code_idempotent_witness :
    (execute_code "/wd" "print(1+1)" "code.py"
        ⟨none, none, fun _ => RunResult.completed ⟨0, "2\n", ""⟩⟩
        ((execute_code "/wd" "print(1+1)" "code.py"
          ⟨none, none, fun _ => RunResult.completed ⟨0, "2\n", ""⟩⟩
          (fun _ => none)).2)).1
      = (execute_code "/wd" "print(1+1)" "code.py"
          ⟨none, none, fun _ => RunResult.completed ⟨0, "2\n", ""⟩⟩
          (fun _ => none)).1
    ∧ (execute_code "/wd" "print(1+1)" "code.py"
        ⟨none, none, fun _ => RunResult.completed ⟨0, "2\n", ""⟩⟩
        ((execute_code "/wd" "print(1+1)" "code.py"
          ⟨none, none, fun _ => RunResult.completed ⟨0, "2\n", ""⟩⟩
          (fun _ => none)).2)).2
      = (execute_code "/wd" "print(1+1)" "code.py"
          ⟨none, none, fun _ => RunResult.completed ⟨0, "2\n", ""⟩⟩
          (fun _ => none)).2
    ∧ (execute_code "/wd" "print(1+1)" "code.py"
        ⟨none, none, fun _ => RunResult.completed ⟨0, "2\n", ""⟩⟩
        (fun _ => none)).2 (resolvedPath "/wd" "code.py") = some "print(1+1)" :=
  execute_code_idempotent "/wd" "print(1+1)" "code.py"
    ⟨none, none, fun _ => RunResult.completed ⟨0, "2\n", ""⟩⟩
    (fun _ => none) rfl rfl

/-- Claim C10: on every path of `execute_code` — success, execution failure,
or caught fault — the returned dictionary contains the keys `result` and
`file_path`, contains exactly one of the keys `output` and `error`, the
`output` key is present exactly on the success path, and hence the `error`
key is present exactly on the failure and caught-fault paths. -/
theorem execute_code_dict_shape
    (wd ic name : String) (env : Env) (fs : FS) :
    "result" ∈ ((execute_code wd ic name env fs).1.toDict).map Prod.fst
    ∧ "file_path" ∈ ((execute_code wd ic name env fs).1.toDict).map Prod.fst
    ∧ (("output" ∈ ((execute_code wd ic name env fs).1.toDict).map Prod.fst)
        ↔ ¬ ("error" ∈ ((execute_code wd ic name env fs).1.toDict).map Prod.fst))
    ∧ (("output" ∈ ((execute_code wd ic name env fs).1.toDict).map Prod.fst)
        ↔ (execute_code wd ic name env fs).1.result
          = "Code executed successfully")
    ∧ (("error" ∈ ((execute_code wd ic name env fs).1.toDict).map Prod.fst)
        ↔ (execute_code wd ic name env fs).1.result
          ≠ "Code executed successfully") := by
  cases hm : env.makedirsFault with
  | some m =>
    refine ⟨?_, ?_, ?_, ?_, ?_⟩ <;>
      simp [execute_code, execute_code_try, hm, ExecResult.toDict]
  | none =>
    cases hw : env.writeFault with
    | some m =>
      refine ⟨?_, ?_, ?_, ?_, ?_⟩ <;>
        simp [execute_code, execute_code_try, hm, hw, ExecResult.toDict]
    | none =>
      cases hr : env.run (buildCommand (resolvedPath wd name)) with
      | launchFault m =>
        refine ⟨?_, ?_, ?_, ?_, ?_⟩ <;>
          simp [execute_code, execute_code_try, hm, hw, hr, ExecResult.toDict]
      | completed o =>
        by_cases h0 : o.returncode = 0 <;>
          refine ⟨?_, ?_, ?_, ?_, ?_⟩ <;>
            simp [execute_code, execute_code_try, hm, hw, hr, h0,
              ExecResult.toDict]

/-- Witness for C10 at a concrete input. -/
theorem execute_code_dict_shape_witness :
    "result" ∈ ((execute_code "/wd" "x" "code.py"
        ⟨none, none, fun _ => RunResult.completed ⟨0, "", ""⟩⟩
        (fun _ => none)).1.toDict).map Prod.fst
    ∧ "file_path" ∈ ((execute_code "/wd" "x" "code.py"
        ⟨none, none, fun _ => RunResult.completed ⟨0, "", ""⟩⟩
        (fun _ => none)).1.toDict).map Prod.fst
    ∧ (("output" ∈ ((execute_code "/wd" "x" "code.py"
        ⟨none, none, fun _ => RunResult.completed ⟨0, "", ""⟩⟩
        (fun _ => none)).1.toDict).map Prod.fst)
        ↔ ¬ ("error" ∈ ((execute_code "/wd" "x" "code.py"
        ⟨none, none, fun _ => RunResult.completed ⟨0, "", ""⟩⟩
        (fun _ => none)).1.toDict).map Prod.fst))
    ∧ (("output" ∈ ((execute_code "/wd" "x" "code.py"
        ⟨none, none, fun _ => RunResult.completed ⟨0, "", ""⟩⟩
        (fun _ => none)).1.toDict).map Prod.fst)
        ↔ (execute_code "/wd" "x" "code.py"
          ⟨none, none, fun _ => RunResult.completed ⟨0, "", ""⟩⟩
          (fun _ => none)).1.result = "Code executed successfully")
    ∧ (("error" ∈ ((execute_code "/wd" "x" "code.py"
        ⟨none, none, fun _ => RunResult.completed ⟨0, "", ""⟩⟩
        (fun _ => none)).1.toDict).map Prod.fst)
        ↔ (execute_code "/wd" "x" "code.py"
          ⟨none, none, fun _ => RunResult.completed ⟨0, "", ""⟩⟩
          (fun _ => none)).1.result ≠ "Code executed successfully") :=
  execute_code_dict_shape "/wd" "x" "code.py"
    ⟨none, none, fun _ => RunResult.completed ⟨0, "", ""⟩⟩ (fun _ => none)
